import Mathlib

/-!
# Verification of the investment-plan controller (`plansController.js`)

Shallow embedding of the plan-lifecycle controller of the repository:
users, the plan catalog, plan instances, the append-only transaction
ledger and the global settings record, together with the seven
operations `activatePlan`, `upgradePlan`, `collectDailyProfit`,
`renewPlan`, `createPlan`, `updatePlan` and `deletePlan`.

Modelling conventions:
* JS numbers (currency amounts, rates) are modelled as `ℚ`; all the
  arithmetic the controller performs (`+`, `-`, `*`, `/ 100`) is exact
  on the rationals.
* Dates are modelled as `Int` milliseconds since the epoch
  (`Date.now()` / `getTime()` semantics).  `endDate` is computed with
  `addDays`, a fixed 24h-per-day model of `Date.setDate`.
* The Mongo stores are modelled as: a function map `Nat → Option User`
  for `User.findById`/`save` (the id is the key), a `List Plan` for the
  catalog, a `List PlanInstance` for the instance store and a
  `List Tx` (newest first) for the append-only transaction ledger.
* A `populate` that finds no referenced document yields `none`, exactly
  as Mongoose yields `null`.
* An uncaught JS `TypeError` (a field read on `null`) is modelled by
  the distinguished outcome `Outcome.crash`.
* HTTP error responses are modelled by `Outcome.failure` carrying an
  `OpError`; the paired state is the store state at the moment the
  response is sent (the controller sometimes persists mutations before
  responding with an error, and the model preserves that).
-/

namespace Plans

/-- Global settings record (`Settings`, `configKey: "main_settings"`). -/
structure Settings where
  referralCommissionRate : ℚ
  dailyCommissionRate : ℚ
deriving DecidableEq, Repr

/-- A user document.  The `_id` is the key under which the document is
stored in the user map, so it is not repeated inside the structure. -/
structure User where
  walletBalance : ℚ
  bonusBalance : ℚ
  invitedBy : Option Nat
  activePlanInstance : Option Nat
deriving DecidableEq, Repr

/-- A catalog plan (`Plan` model). -/
structure Plan where
  id : Nat
  name : String
  minAmount : ℚ
  maxAmount : ℚ
  dailyYieldType : String
  dailyYieldValue : ℚ
  durationDays : Nat
  hashRate : String
  imageUrl : String
deriving DecidableEq, Repr

/-- A plan instance (`PlanInstance` model).  `planId` is the reference
to the catalog plan (`populate('plan')` resolves it against the
catalog). -/
structure PlanInstance where
  id : Nat
  userId : Nat
  planId : Nat
  investedAmount : ℚ
  dailyProfit : ℚ
  startDate : Int
  endDate : Int
  lastCollectedDate : Option Int
  totalCollected : ℚ
  status : String
deriving DecidableEq, Repr

/-- An append-only ledger record (`Transaction` model). -/
structure Tx where
  userId : Nat
  type : String
  amount : ℚ
  description : String
deriving DecidableEq, Repr

/-- The whole persistent store. -/
structure St where
  users : Nat → Option User
  catalog : List Plan
  instances : List PlanInstance
  transactions : List Tx
  settings : Option Settings
  nextInstanceId : Nat
  nextPlanId : Nat

/-- Errors the controller responds with (the HTTP 400/404/500 JSON
messages).  `collectionTooSoon` carries the remaining milliseconds
until the next eligible collection time (the controller formats it as
hours with one decimal in the message). -/
inductive OpError where
  | configurationMissing
  | alreadyActive
  | planNotFound
  | invalidAmount
  | insufficientFunds
  | noActivePlan
  | notHigherTier
  | planExpired
  | collectionTooSoon (remainingMs : Int)
  | instanceNotFound
  | notExpired
  | missingFields
  | planInUse
deriving DecidableEq, Repr

/-- The observable result of one controller call.  `crash` models an
uncaught JS `TypeError` (a property read on `null`). -/
inductive Outcome where
  | success
  | failure (e : OpError)
  | crash
deriving DecidableEq, Repr

/-! ## Store primitives -/

/-- `Plan.findById` against the catalog. -/
def findPlan (st : St) (planId : Nat) : Option Plan :=
  st.catalog.find? (fun p => p.id = planId)

/-- `PlanInstance.findById`. -/
def findInstance (st : St) (instId : Nat) : Option PlanInstance :=
  st.instances.find? (fun i => i.id = instId)

/-- `user.save()`: store the document under its id. -/
def saveUser (st : St) (uid : Nat) (u : User) : St :=
  { st with users := fun i => if i = uid then some u else st.users i }

/-- `planInstance.save()`: replace the stored document with the same id. -/
def saveInstance (st : St) (inst : PlanInstance) : St :=
  { st with instances := st.instances.map (fun j => if j.id = inst.id then inst else j) }

/-- `plan.save()`: replace the stored catalog entry with the same id. -/
def savePlan (st : St) (p : Plan) : St :=
  { st with catalog := st.catalog.map (fun q => if q.id = p.id then p else q) }

/-- `Transaction.create`: append to the ledger (newest first). -/
def addTx (st : St) (t : Tx) : St :=
  { st with transactions := t :: st.transactions }

/-- `PlanInstance.create`: allocate a fresh id and insert. -/
def createInstance (st : St) (inst : PlanInstance) : St × Nat :=
  let iid := st.nextInstanceId
  ({ st with instances := { inst with id := iid } :: st.instances,
             nextInstanceId := iid + 1 }, iid)

/-- The user's wallet balance as read from the store (`0` when the user
does not exist; only used on existing users). -/
def wallet (st : St) (uid : Nat) : ℚ :=
  match st.users uid with
  | some u => u.walletBalance
  | none => 0

/-- The user's bonus balance as read from the store. -/
def bonus (st : St) (uid : Nat) : ℚ :=
  match st.users uid with
  | some u => u.bonusBalance
  | none => 0

/-- Sum of the signed amounts of the ledger records belonging to a user. -/
def txSum (uid : Nat) (l : List Tx) : ℚ :=
  l.foldr (fun t acc => (if t.userId = uid then t.amount else 0) + acc) 0

/-- `endDate.setDate(startDate.getDate() + durationDays)`, in the fixed
24h-per-day model (86400000 ms per day). -/
def addDays (t : Int) (d : Nat) : Int :=
  t + (d : Int) * 86400000

/-- `plan.dailyYieldType === 'fixed' ? plan.dailyYieldValue
: (base * plan.dailyYieldValue) / 100` — the daily-profit formula the
controller repeats in `activatePlan` (base = invested amount),
`upgradePlan` (base = newPlan.minAmount) and `renewPlan`
(base = renewalCost). -/
def computeDailyProfit (plan : Plan) (base : ℚ) : ℚ :=
  if plan.dailyYieldType = "fixed" then plan.dailyYieldValue
  else base * plan.dailyYieldValue / 100

/-- Lines 57–68 of `activatePlan`: split the invested amount into the
part paid from the wallet (`realAmountToPay`, first component) and the
part consumed from the bonus balance (`bonusAmountUsed`, second
component). -/
def fundSplit (bonusBalance amount : ℚ) : ℚ × ℚ :=
  if bonusBalance > 0 then
    if bonusBalance ≥ amount then (0, amount)
    else (amount - bonusBalance, bonusBalance)
  else (amount, 0)

/-! ## User-side operations -/

/-- `activatePlan` (lines 33–119).  `investedAmount = none` models a
request body whose `Number(investedAmount)` is `NaN`. -/
def activatePlan (st : St) (uid planId : Nat) (investedAmount : Option ℚ) (now : Int) :
    St × Outcome :=
  match st.settings with
  | none => (st, .failure .configurationMissing)
  | some settings =>
    match st.users uid with
    | none => (st, .crash)
    | some user =>
      if user.activePlanInstance.isSome then (st, .failure .alreadyActive)
      else
        match findPlan st planId with
        | none => (st, .failure .planNotFound)
        | some plan =>
          match investedAmount with
          | none => (st, .failure .invalidAmount)
          | some amount =>
            if amount < plan.minAmount ∨ amount > plan.maxAmount then
              (st, .failure .invalidAmount)
            else
              let realAmountToPay := (fundSplit user.bonusBalance amount).1
              let bonusAmountUsed := (fundSplit user.bonusBalance amount).2
              if user.walletBalance < realAmountToPay then
                (st, .failure .insufficientFunds)
              else
                let dailyProfit := computeDailyProfit plan amount
                let stI := createInstance st
                  { id := 0, userId := uid, planId := plan.id,
                    investedAmount := amount, dailyProfit := dailyProfit,
                    startDate := now, endDate := addDays now plan.durationDays,
                    lastCollectedDate := some now, totalCollected := 0,
                    status := "active" }
                let st1 := stI.1
                let newId := stI.2
                let st2 := saveUser st1 uid
                  { user with walletBalance := user.walletBalance - realAmountToPay,
                              bonusBalance := user.bonusBalance - bonusAmountUsed,
                              activePlanInstance := some newId }
                let st3 := addTx st2
                  { userId := uid, type := "investment", amount := -amount,
                    description := "Investimento no plano " ++ plan.name }
                match user.invitedBy with
                | none => (st3, .success)
                | some rid =>
                  match st3.users rid with
                  | none => (st3, .success)
                  | some referrer =>
                    let commissionAmount := amount * (settings.referralCommissionRate / 100)
                    let st4 := saveUser st3 rid
                      { referrer with walletBalance := referrer.walletBalance + commissionAmount }
                    let st5 := addTx st4
                      { userId := rid, type := "commission", amount := commissionAmount,
                        description := "Comissao por ativacao de plano" }
                    (st5, .success)

/-- `upgradePlan` (lines 126–185).  The active instance and its plan
are `populate`d; a dangling reference populates to `null`. -/
def upgradePlan (st : St) (uid newPlanId : Nat) (now : Int) : St × Outcome :=
  match st.users uid with
  | none => (st, .crash)
  | some user =>
    match user.activePlanInstance.bind (findInstance st) with
    | none => (st, .failure .noActivePlan)
    | some oldPlanInstance =>
      match findPlan st newPlanId with
      | none => (st, .failure .planNotFound)
      | some newPlan =>
        match findPlan st oldPlanInstance.planId with
        | none => (st, .crash)
        | some oldPlan =>
          if newPlan.minAmount ≤ oldPlan.minAmount then (st, .failure .notHigherTier)
          else
            let priceDifference := newPlan.minAmount - oldPlan.minAmount
            if user.walletBalance < priceDifference then (st, .failure .insufficientFunds)
            else
              let st1 := saveInstance st { oldPlanInstance with status := "expired" }
              let dailyProfit := computeDailyProfit newPlan newPlan.minAmount
              let stI := createInstance st1
                { id := 0, userId := uid, planId := newPlan.id,
                  investedAmount := newPlan.minAmount, dailyProfit := dailyProfit,
                  startDate := now, endDate := addDays now newPlan.durationDays,
                  lastCollectedDate := some now, totalCollected := 0,
                  status := "active" }
              let st2 := stI.1
              let newId := stI.2
              let st3 := saveUser st2 uid
                { user with walletBalance := user.walletBalance - priceDifference,
                            activePlanInstance := some newId }
              let st4 := addTx st3
                { userId := uid, type := "investment", amount := -priceDifference,
                  description := "Upgrade do plano " ++ oldPlan.name ++ " para " ++ newPlan.name }
              (st4, .success)

/-- `collectDailyProfit` (lines 192–244). -/
def collectDailyProfit (st : St) (uid : Nat) (now : Int) : St × Outcome :=
  match st.settings with
  | none => (st, .failure .configurationMissing)
  | some settings =>
    match st.users uid with
    | none => (st, .crash)
    | some user =>
      match user.activePlanInstance.bind (findInstance st) with
      | none => (st, .failure .noActivePlan)
      | some planInstance =>
        if planInstance.endDate < now then
          let st1 := saveInstance st { planInstance with status := "expired" }
          let st2 := saveUser st1 uid { user with activePlanInstance := none }
          (st2, .failure .planExpired)
        else
          let lastCollectionBase := planInstance.lastCollectedDate.getD planInstance.startDate
          let nextCollectionTime := lastCollectionBase + 24 * 60 * 60 * 1000
          if now < nextCollectionTime then
            (st, .failure (.collectionTooSoon (nextCollectionTime - now)))
          else
            let profit := planInstance.dailyProfit
            let st1 := saveInstance st
              { planInstance with lastCollectedDate := some now,
                                  totalCollected := planInstance.totalCollected + profit }
            let st2 := saveUser st1 uid
              { user with walletBalance := user.walletBalance + profit }
            let st3 := addTx st2
              { userId := uid, type := "collection", amount := profit,
                description := "Coleta de rendimento diario" }
            match user.invitedBy with
            | none => (st3, .success)
            | some rid =>
              match st3.users rid with
              | none => (st3, .success)
              | some referrer =>
                if referrer.activePlanInstance.isSome then
                  let dailyCommission := profit * (settings.dailyCommissionRate / 100)
                  let st4 := saveUser st3 rid
                    { referrer with walletBalance := referrer.walletBalance + dailyCommission }
                  let st5 := addTx st4
                    { userId := rid, type := "commission", amount := dailyCommission,
                      description := "Comissao diaria do lucro" }
                  (st5, .success)
                else (st3, .success)

/-- `renewPlan` (lines 251–304).  The old instance's plan is
`populate`d against the catalog; when the catalog entry has been
deleted the populate yields `null` and line 269 (`planToRenew.minAmount`)
throws an uncaught `TypeError`, modelled as `crash`. -/
def renewPlan (st : St) (uid instanceId : Nat) (now : Int) : St × Outcome :=
  match findInstance st instanceId with
  | none => (st, .failure .instanceNotFound)
  | some oldInstance =>
    match st.users uid with
    | none => (st, .crash)
    | some user =>
      if oldInstance.userId ≠ uid then (st, .failure .instanceNotFound)
      else if oldInstance.status ≠ "expired" then (st, .failure .notExpired)
      else if user.activePlanInstance.isSome then (st, .failure .alreadyActive)
      else
        match findPlan st oldInstance.planId with
        | none => (st, .crash)
        | some planToRenew =>
          let renewalCost := planToRenew.minAmount
          if user.walletBalance < renewalCost then (st, .failure .insufficientFunds)
          else
            let dailyProfit := computeDailyProfit planToRenew renewalCost
            let stI := createInstance st
              { id := 0, userId := uid, planId := planToRenew.id,
                investedAmount := renewalCost, dailyProfit := dailyProfit,
                startDate := now, endDate := addDays now planToRenew.durationDays,
                lastCollectedDate := some now, totalCollected := 0,
                status := "active" }
            let st1 := stI.1
            let newId := stI.2
            let st2 := saveUser st1 uid
              { user with walletBalance := user.walletBalance - renewalCost,
                          activePlanInstance := some newId }
            let st3 := addTx st2
              { userId := uid, type := "investment", amount := -renewalCost,
                description := "Renovacao do plano " ++ planToRenew.name }
            (st3, .success)

/-! ## Admin-side operations -/

/-- The request body of the admin create/update endpoints; `none`
models an absent field. -/
structure PlanBody where
  name : Option String
  minAmount : Option ℚ
  maxAmount : Option ℚ
  dailyYieldType : Option String
  dailyYieldValue : Option ℚ
  durationDays : Option Nat
  hashRate : Option String
deriving DecidableEq, Repr

/-- JS truthiness of an optional string field (`undefined` and `''`
are falsy). -/
def truthyStr : Option String → Bool
  | none => false
  | some s => s ≠ ""

/-- JS truthiness of an optional numeric field (`undefined` and `0`
are falsy). -/
def truthyNum : Option ℚ → Bool
  | none => false
  | some v => v ≠ 0

/-- JS truthiness of an optional integer field. -/
def truthyNat : Option Nat → Bool
  | none => false
  | some n => n ≠ 0

/-- `createPlan` (lines 316–323): requires the six mandatory fields to
be truthy, then stores the plan exactly as given.  `file` is the
optional uploaded image path. -/
def createPlan (st : St) (body : PlanBody) (file : Option String) : St × Outcome :=
  if !(truthyStr body.name && truthyNum body.minAmount && truthyNum body.maxAmount &&
       truthyStr body.dailyYieldType && truthyNum body.dailyYieldValue &&
       truthyNat body.durationDays) then
    (st, .failure .missingFields)
  else
    let pid := st.nextPlanId
    let plan : Plan :=
      { id := pid, name := body.name.getD "",
        minAmount := body.minAmount.getD 0, maxAmount := body.maxAmount.getD 0,
        dailyYieldType := body.dailyYieldType.getD "",
        dailyYieldValue := body.dailyYieldValue.getD 0,
        durationDays := body.durationDays.getD 0,
        hashRate := body.hashRate.getD "",
        imageUrl := file.getD "" }
    ({ st with catalog := plan :: st.catalog, nextPlanId := pid + 1 }, .success)

/-- `Object.assign(plan, req.body)` of `updatePlan`: every field present
in the body overwrites the stored field, with no validation. -/
def mergePlan (plan : Plan) (body : PlanBody) : Plan :=
  { plan with
    name := body.name.getD plan.name,
    minAmount := body.minAmount.getD plan.minAmount,
    maxAmount := body.maxAmount.getD plan.maxAmount,
    dailyYieldType := body.dailyYieldType.getD plan.dailyYieldType,
    dailyYieldValue := body.dailyYieldValue.getD plan.dailyYieldValue,
    durationDays := body.durationDays.getD plan.durationDays,
    hashRate := body.hashRate.getD plan.hashRate }

/-- `updatePlan` (lines 325–332). -/
def updatePlan (st : St) (planId : Nat) (body : PlanBody) (file : Option String) :
    St × Outcome :=
  match findPlan st planId with
  | none => (st, .failure .planNotFound)
  | some plan =>
    let merged := mergePlan plan body
    let merged := match file with
      | some path => { merged with imageUrl := path }
      | none => merged
    (savePlan st merged, .success)

/-- `deletePlan` (lines 334–341): guarded by the count of active
instances referencing the plan. -/
def deletePlan (st : St) (planId : Nat) : St × Outcome :=
  match findPlan st planId with
  | none => (st, .failure .planNotFound)
  | some plan =>
    let activeInstances :=
      (st.instances.filter (fun i => i.planId = plan.id && i.status = "active")).length
    if activeInstances > 0 then (st, .failure .planInUse)
    else ({ st with catalog := st.catalog.filter (fun p => !(p.id = plan.id)) }, .success)

/-! ## Lifecycle operation sequences -/

/-- One lifecycle operation, for reasoning about arbitrary sequences. -/
inductive Op where
  | activate (uid planId : Nat) (investedAmount : Option ℚ) (now : Int)
  | upgrade (uid newPlanId : Nat) (now : Int)
  | collect (uid : Nat) (now : Int)
  | renew (uid instanceId : Nat) (now : Int)

/-- Run one lifecycle operation. -/
def step (st : St) : Op → St × Outcome
  | .activate uid planId amt now => activatePlan st uid planId amt now
  | .upgrade uid newPlanId now => upgradePlan st uid newPlanId now
  | .collect uid now => collectDailyProfit st uid now
  | .renew uid instanceId now => renewPlan st uid instanceId now

/-- Run a sequence of lifecycle operations, keeping the store state
across both successful and failing calls. -/
def run (st : St) (ops : List Op) : St :=
  ops.foldl (fun s op => (step s op).1) st

/-! ## Ledger conservation infrastructure -/


def acct (q : Nat) (st : St) : ℚ :=
  txSum q st.transactions - wallet st q - bonus st q

@[simp] theorem users_saveUser (st : St) (k : Nat) (u : User) (i : Nat) :
    (saveUser st k u).users i = if i = k then some u else st.users i := rfl

@[simp] theorem transactions_saveUser (st : St) (k : Nat) (u : User) :
    (saveUser st k u).transactions = st.transactions := rfl

@[simp] theorem users_addTx (st : St) (t : Tx) (i : Nat) :
    (addTx st t).users i = st.users i := rfl

@[simp] theorem transactions_addTx (st : St) (t : Tx) :
    (addTx st t).transactions = t :: st.transactions := rfl

@[simp] theorem users_saveInstance (st : St) (j : PlanInstance) (i : Nat) :
    (saveInstance st j).users i = st.users i := rfl

@[simp] theorem transactions_saveInstance (st : St) (j : PlanInstance) :
    (saveInstance st j).transactions = st.transactions := rfl

@[simp] theorem users_createInstance (st : St) (j : PlanInstance) (i : Nat) :
    (createInstance st j).1.users i = st.users i := rfl

@[simp] theorem transactions_createInstance (st : St) (j : PlanInstance) :
    (createInstance st j).1.transactions = st.transactions := rfl

@[simp] theorem txSum_cons (q : Nat) (t : Tx) (l : List Tx) :
    txSum q (t :: l) = (if t.userId = q then t.amount else 0) + txSum q l := rfl

theorem fundSplit_add (b a : ℚ) : (fundSplit b a).1 + (fundSplit b a).2 = a := by
  unfold fundSplit
  split
  · split <;> simp
  · simp

theorem wallet_eq_of (st : St) (q : Nat) (u : User) (h : st.users q = some u) :
    wallet st q = u.walletBalance := by
  unfold wallet; rw [h]

theorem bonus_eq_of (st : St) (q : Nat) (u : User) (h : st.users q = some u) :
    bonus st q = u.bonusBalance := by
  unfold bonus; rw [h]

theorem acct_addTx (st : St) (t : Tx) (q : Nat) :
    acct q (addTx st t) = (if t.userId = q then t.amount else 0) + acct q st := by
  unfold acct wallet bonus
  simp only [transactions_addTx, users_addTx, txSum_cons]
  ring

theorem acct_saveUser (st : St) (k : Nat) (u u0 : User) (q : Nat)
    (h0 : st.users k = some u0) :
    acct q (saveUser st k u) =
      acct q st + (if q = k then (u0.walletBalance - u.walletBalance) +
        (u0.bonusBalance - u.bonusBalance) else 0) := by
  unfold acct wallet bonus
  simp only [transactions_saveUser, users_saveUser]
  by_cases hq : q = k
  · subst hq; rw [h0]; simp; ring
  · simp [hq]

theorem acct_saveInstance (st : St) (j : PlanInstance) (q : Nat) :
    acct q (saveInstance st j) = acct q st := rfl

theorem acct_createInstance (st : St) (j : PlanInstance) (q : Nat) :
    acct q (createInstance st j).1 = acct q st := rfl

theorem acct_activatePlan (st : St) (uid pid : Nat) (amt : Option ℚ) (now : Int) (q : Nat) :
    acct q (activatePlan st uid pid amt now).1 = acct q st := by
  unfold activatePlan
  cases hset : st.settings with
  | none => rfl
  | some settings =>
  simp only []
  cases hu : st.users uid with
  | none => rfl
  | some user =>
  simp only []
  by_cases hap : user.activePlanInstance.isSome
  · simp [hap]
  simp only [hap, if_false, Bool.false_eq_true]
  cases hp : findPlan st pid with
  | none => rfl
  | some plan =>
  simp only []
  cases amt with
  | none => rfl
  | some amount =>
  simp only []
  split
  · rfl
  split
  · rfl
  have hfs := fundSplit_add user.bonusBalance amount
  cases hinv : user.invitedBy with
  | none =>
    simp only []
    rw [acct_addTx, acct_saveUser _ _ _ user _ (by simp [hu]), acct_createInstance]
    by_cases hq : q = uid
    · subst hq; simp; linarith
    · simp [hq, Ne.symm hq]
  | some rid =>
    simp only []
    cases hr : ((addTx (saveUser (createInstance st _).1 uid _) _).users rid) with
    | none =>
      simp only []
      rw [acct_addTx, acct_saveUser _ _ _ user _ (by simp [hu]), acct_createInstance]
      by_cases hq : q = uid
      · subst hq; simp; linarith
      · simp [hq, Ne.symm hq]
    | some referrer =>
      simp only []
      rw [acct_addTx, acct_saveUser _ _ _ referrer _ hr, acct_addTx,
        acct_saveUser _ _ _ user _ (by simp [hu]), acct_createInstance]
      by_cases hqr : q = rid
      · subst hqr
        by_cases hq : q = uid
        · subst hq; simp; linarith
        · simp [hq, Ne.symm hq]
          try ring
      · by_cases hq : q = uid
        · subst hq; simp [hqr, Ne.symm hqr]; linarith
        · simp [hq, Ne.symm hq, hqr, Ne.symm hqr]

theorem acct_upgradePlan (st : St) (uid npid : Nat) (now : Int) (q : Nat) :
    acct q (upgradePlan st uid npid now).1 = acct q st := by
  unfold upgradePlan
  cases hu : st.users uid with
  | none => rfl
  | some user =>
  simp only []
  cases hoi : user.activePlanInstance.bind (findInstance st) with
  | none => rfl
  | some oldPlanInstance =>
  simp only []
  cases hnp : findPlan st npid with
  | none => rfl
  | some newPlan =>
  simp only []
  cases hop : findPlan st oldPlanInstance.planId with
  | none => rfl
  | some oldPlan =>
  simp only []
  split
  · rfl
  split
  · rfl
  simp only []
  rw [acct_addTx, acct_saveUser _ _ _ user _ (by simp [hu]), acct_createInstance,
    acct_saveInstance]
  by_cases hq : q = uid
  · subst hq; simp; ring
  · simp [hq, Ne.symm hq]

theorem acct_collectDailyProfit (st : St) (uid : Nat) (now : Int) (q : Nat) :
    acct q (collectDailyProfit st uid now).1 = acct q st := by
  unfold collectDailyProfit
  cases hset : st.settings with
  | none => rfl
  | some settings =>
  simp only []
  cases hu : st.users uid with
  | none => rfl
  | some user =>
  simp only []
  cases hoi : user.activePlanInstance.bind (findInstance st) with
  | none => rfl
  | some planInstance =>
  simp only []
  split
  · rw [acct_saveUser _ _ _ user _ (by simp [hu]), acct_saveInstance]
    simp
  split
  · rfl
  cases hinv : user.invitedBy with
  | none =>
    simp only []
    rw [acct_addTx, acct_saveUser _ _ _ user _ (by simp [hu]), acct_saveInstance]
    by_cases hq : q = uid
    · subst hq; simp
    · simp [hq, Ne.symm hq]
  | some rid =>
    simp only []
    cases hr : ((addTx (saveUser (saveInstance st _) uid _) _).users rid) with
    | none =>
      simp only []
      rw [acct_addTx, acct_saveUser _ _ _ user _ (by simp [hu]), acct_saveInstance]
      by_cases hq : q = uid
      · subst hq; simp
      · simp [hq, Ne.symm hq]
    | some referrer =>
      simp only []
      split
      · rw [acct_addTx, acct_saveUser _ _ _ referrer _ hr, acct_addTx,
          acct_saveUser _ _ _ user _ (by simp [hu]), acct_saveInstance]
        by_cases hqr : q = rid
        · subst hqr
          by_cases hq : q = uid
          · subst hq; simp
          · simp [hq, Ne.symm hq]
            try ring
        · by_cases hq : q = uid
          · subst hq; simp [hqr, Ne.symm hqr]
          · simp [hq, Ne.symm hq, hqr, Ne.symm hqr]
      · rw [acct_addTx, acct_saveUser _ _ _ user _ (by simp [hu]), acct_saveInstance]
        by_cases hq : q = uid
        · subst hq; simp
        · simp [hq, Ne.symm hq]

theorem acct_renewPlan (st : St) (uid iid : Nat) (now : Int) (q : Nat) :
    acct q (renewPlan st uid iid now).1 = acct q st := by
  unfold renewPlan
  cases hoi : findInstance st iid with
  | none => rfl
  | some oldInstance =>
  simp only []
  cases hu : st.users uid with
  | none => rfl
  | some user =>
  simp only []
  split
  · rfl
  split
  · rfl
  split
  · rfl
  cases hop : findPlan st oldInstance.planId with
  | none => rfl
  | some planToRenew =>
  simp only []
  split
  · rfl
  simp only []
  rw [acct_addTx, acct_saveUser _ _ _ user _ (by simp [hu]), acct_createInstance]
  by_cases hq : q = uid
  · subst hq; simp
  · simp [hq, Ne.symm hq]

theorem acct_step (st : St) (op : Op) (q : Nat) : acct q (step st op).1 = acct q st := by
  cases op with
  | activate uid planId amt now => exact acct_activatePlan st uid planId amt now q
  | upgrade uid npid now => exact acct_upgradePlan st uid npid now q
  | collect uid now => exact acct_collectDailyProfit st uid now q
  | renew uid iid now => exact acct_renewPlan st uid iid now q

theorem acct_run (st : St) (ops : List Op) (q : Nat) : acct q (run st ops) = acct q st := by
  induction ops generalizing st with
  | nil => rfl
  | cons op ops ih =>
    have hc : run st (op :: ops) = run (step st op).1 ops := rfl
    rw [hc, ih, acct_step]

/-! ## Claims about activation (C2, C9) -/

theorem fundSplit_le_bonus (b a : ℚ) (hb : 0 ≤ b) : (fundSplit b a).2 ≤ b := by
  unfold fundSplit
  split_ifs with h1 h2
  · simpa using h2
  · simp
  · simpa using hb

/-- Shared success-path description of `activatePlan`: under the
preconditions the call succeeds, debits the fund split from the user's
two balances, links the new instance and prepends it to the store. -/
theorem activate_success (st : St) (uid pid : Nat) (amount : ℚ) (now : Int)
    (s : Settings) (u : User) (plan : Plan)
    (hs : st.settings = some s) (hu : st.users uid = some u)
    (hap : u.activePlanInstance = none) (hp : findPlan st pid = some plan)
    (hrange : ¬(amount < plan.minAmount ∨ amount > plan.maxAmount))
    (hw : ¬(u.walletBalance < (fundSplit u.bonusBalance amount).1))
    (hni : u.invitedBy ≠ some uid) :
    (activatePlan st uid pid (some amount) now).2 = .success ∧
    (activatePlan st uid pid (some amount) now).1.users uid = some
      { walletBalance := u.walletBalance - (fundSplit u.bonusBalance amount).1,
        bonusBalance := u.bonusBalance - (fundSplit u.bonusBalance amount).2,
        invitedBy := u.invitedBy,
        activePlanInstance := some st.nextInstanceId } ∧
    (activatePlan st uid pid (some amount) now).1.instances =
      { id := st.nextInstanceId, userId := uid, planId := plan.id,
        investedAmount := amount, dailyProfit := computeDailyProfit plan amount,
        startDate := now, endDate := addDays now plan.durationDays,
        lastCollectedDate := some now, totalCollected := 0,
        status := "active" } :: st.instances := by
  unfold activatePlan
  rw [hs]
  simp only []
  rw [hu]
  simp only [hap, Option.isSome_none, Bool.false_eq_true, if_false]
  rw [hp]
  simp only []
  rw [if_neg hrange, if_neg hw]
  cases hinv : u.invitedBy with
  | none => exact ⟨rfl, by simp [saveUser, addTx, createInstance], rfl⟩
  | some rid =>
    have hrne : rid ≠ uid := by
      intro h; exact hni (by rw [hinv, h])
    simp only []
    cases hr : ((addTx (saveUser (createInstance st _).1 uid _) _).users rid) with
    | none => exact ⟨rfl, by simp [saveUser, addTx, createInstance], rfl⟩
    | some referrer =>
      refine ⟨rfl, ?_, rfl⟩
      simp [saveUser, addTx, createInstance, Ne.symm hrne]

/-- C2: on a valid in-range activation the bonus balance is consumed
first (up to the full invested amount) and the remainder comes from the
wallet: the two parts sum to the invested amount, the bonus part is
bounded by the bonus balance and, on success, the wallet part is
bounded by the wallet balance, each balance being debited by exactly
its part; when the wallet cannot cover the remainder the call fails
with `insufficientFunds` and the store is unchanged. -/
theorem activate_funding_split (st : St) (uid pid : Nat) (amount : ℚ) (now : Int)
    (s : Settings) (u : User) (plan : Plan)
    (hs : st.settings = some s) (hu : st.users uid = some u)
    (hap : u.activePlanInstance = none) (hp : findPlan st pid = some plan)
    (hrange : ¬(amount < plan.minAmount ∨ amount > plan.maxAmount))
    (hb : 0 ≤ u.bonusBalance) (hni : u.invitedBy ≠ some uid) :
    (fundSplit u.bonusBalance amount).2 + (fundSplit u.bonusBalance amount).1 = amount ∧
    (fundSplit u.bonusBalance amount).2 ≤ u.bonusBalance ∧
    (¬(u.walletBalance < (fundSplit u.bonusBalance amount).1) →
      (fundSplit u.bonusBalance amount).1 ≤ u.walletBalance ∧
      (activatePlan st uid pid (some amount) now).2 = .success ∧
      wallet (activatePlan st uid pid (some amount) now).1 uid =
        u.walletBalance - (fundSplit u.bonusBalance amount).1 ∧
      bonus (activatePlan st uid pid (some amount) now).1 uid =
        u.bonusBalance - (fundSplit u.bonusBalance amount).2) ∧
    (u.walletBalance < (fundSplit u.bonusBalance amount).1 →
      activatePlan st uid pid (some amount) now = (st, .failure .insufficientFunds)) := by
  refine ⟨by linarith [fundSplit_add u.bonusBalance amount],
    fundSplit_le_bonus _ _ hb, ?_, ?_⟩
  · intro hw
    obtain ⟨h1, h2, h3⟩ := activate_success st uid pid amount now s u plan
      hs hu hap hp hrange hw hni
    refine ⟨not_lt.mp hw, h1, ?_, ?_⟩
    · rw [wallet_eq_of _ _ _ h2]
    · rw [bonus_eq_of _ _ _ h2]
  · intro hw
    unfold activatePlan
    rw [hs]
    simp only []
    rw [hu]
    simp only [hap, Option.isSome_none, Bool.false_eq_true, if_false]
    rw [hp]
    simp only []
    rw [if_neg hrange, if_pos hw]

/-- C2 witness: wallet 1000, bonus 200, plan range [100, 5000],
activating 300 consumes the 200 bonus first and 100 from the wallet. -/
def exSt : St :=
  { users := fun i => if i = 1 then
        some { walletBalance := 1000, bonusBalance := 200,
               invitedBy := none, activePlanInstance := none }
      else none,
    catalog := [{ id := 1, name := "A", minAmount := 100, maxAmount := 5000,
                  dailyYieldType := "percentage", dailyYieldValue := 2,
                  durationDays := 30, hashRate := "", imageUrl := "" }],
    instances := [], transactions := [],
    settings := some { referralCommissionRate := 10, dailyCommissionRate := 5 },
    nextInstanceId := 0, nextPlanId := 2 }

theorem activate_funding_split_witness :
    (fundSplit (200 : ℚ) 300).2 + (fundSplit (200 : ℚ) 300).1 = 300 ∧
    (activatePlan exSt 1 1 (some 300) 0).2 = .success ∧
    wallet (activatePlan exSt 1 1 (some 300) 0).1 1 = 1000 - (fundSplit (200 : ℚ) 300).1 ∧
    bonus (activatePlan exSt 1 1 (some 300) 0).1 1 = 200 - (fundSplit (200 : ℚ) 300).2 := by
  have h := activate_funding_split exSt 1 1 300 0
    { referralCommissionRate := 10, dailyCommissionRate := 5 }
    { walletBalance := 1000, bonusBalance := 200,
      invitedBy := none, activePlanInstance := none }
    { id := 1, name := "A", minAmount := 100, maxAmount := 5000,
      dailyYieldType := "percentage", dailyYieldValue := 2,
      durationDays := 30, hashRate := "", imageUrl := "" }
    rfl rfl rfl rfl (by norm_num) (by norm_num) (by simp)
  obtain ⟨h1, _, h3, _⟩ := h
  obtain ⟨_, h5, h6, h7⟩ := h3 (by norm_num [fundSplit])
  exact ⟨h1, h5, h6, h7⟩

/-- C9: on a successful activation the new instance's `dailyProfit` is
the plan's `dailyYieldValue` for a fixed-yield plan and
`investedAmount * dailyYieldValue / 100` for a percentage-yield plan,
and its `investedAmount` is the activated amount. -/
theorem activate_dailyProfit (st : St) (uid pid : Nat) (amount : ℚ) (now : Int)
    (s : Settings) (u : User) (plan : Plan)
    (hs : st.settings = some s) (hu : st.users uid = some u)
    (hap : u.activePlanInstance = none) (hp : findPlan st pid = some plan)
    (hrange : ¬(amount < plan.minAmount ∨ amount > plan.maxAmount))
    (hw : ¬(u.walletBalance < (fundSplit u.bonusBalance amount).1))
    (hni : u.invitedBy ≠ some uid) :
    (activatePlan st uid pid (some amount) now).2 = .success ∧
    ∃ inst, (activatePlan st uid pid (some amount) now).1.instances.head? = some inst ∧
      inst.investedAmount = amount ∧
      (plan.dailyYieldType = "fixed" → inst.dailyProfit = plan.dailyYieldValue) ∧
      (plan.dailyYieldType = "percentage" →
        inst.dailyProfit = amount * plan.dailyYieldValue / 100) := by
  obtain ⟨h1, _, h3⟩ := activate_success st uid pid amount now s u plan
    hs hu hap hp hrange hw hni
  refine ⟨h1, _, by rw [h3]; rfl, rfl, ?_, ?_⟩
  · intro hf
    simp [computeDailyProfit, hf]
  · intro hpct
    simp [computeDailyProfit, hpct]

/-- C9 witness, the spec's worked example: a percentage plan with
`dailyYieldValue = 2` activated with 1000 yields `dailyProfit = 20`. -/
def exSt9 : St :=
  { users := fun i => if i = 1 then
        some { walletBalance := 2000, bonusBalance := 0,
               invitedBy := none, activePlanInstance := none }
      else none,
    catalog := [{ id := 1, name := "A", minAmount := 500, maxAmount := 5000,
                  dailyYieldType := "percentage", dailyYieldValue := 2,
                  durationDays := 30, hashRate := "", imageUrl := "" }],
    instances := [], transactions := [],
    settings := some { referralCommissionRate := 10, dailyCommissionRate := 5 },
    nextInstanceId := 0, nextPlanId := 2 }

theorem activate_dailyProfit_witness :
    (activatePlan exSt9 1 1 (some 1000) 0).2 = .success ∧
    ∃ inst, (activatePlan exSt9 1 1 (some 1000) 0).1.instances.head? = some inst ∧
      inst.dailyProfit = 20 := by
  have h := activate_dailyProfit exSt9 1 1 1000 0
    { referralCommissionRate := 10, dailyCommissionRate := 5 }
    { walletBalance := 2000, bonusBalance := 0,
      invitedBy := none, activePlanInstance := none }
    { id := 1, name := "A", minAmount := 500, maxAmount := 5000,
      dailyYieldType := "percentage", dailyYieldValue := 2,
      durationDays := 30, hashRate := "", imageUrl := "" }
    rfl rfl rfl rfl (by norm_num) (by norm_num [fundSplit]) (by simp)
  obtain ⟨h1, inst, h2, _, _, h5⟩ := h
  refine ⟨h1, inst, h2, ?_⟩
  rw [h5 rfl]
  norm_num

/-! ## Claims about daily collection (C3, C4) -/

/-- Replacing the element a `find?` located (by instance id) is observed
by a subsequent `find?` with the same id. -/
theorem find?_map_replace (l : List PlanInstance) (iid : Nat) (a b : PlanInstance)
    (h : l.find? (fun i => i.id = iid) = some a) (hb : b.id = a.id) :
    (l.map (fun j => if j.id = a.id then b else j)).find? (fun i => i.id = iid) =
      some b := by
  have haid : a.id = iid := by simpa using List.find?_some h
  induction l with
  | nil => simp at h
  | cons x xs ih =>
    simp only [List.map_cons]
    by_cases hx : x.id = iid
    · rw [List.find?_cons_of_pos _ (by simpa using hx)] at h
      obtain rfl : x = a := by simpa using h
      rw [if_pos rfl]
      exact List.find?_cons_of_pos _ (by simp [hb, haid])
    · rw [List.find?_cons_of_neg _ (by simpa using hx)] at h
      rw [if_neg (fun hcon => hx (by rw [hcon, haid]))]
      rw [List.find?_cons_of_neg _ (by simpa using hx)]
      exact ih h

/-- C4: collecting on an instance whose `endDate` has passed flips the
instance to `expired`, clears the user's active-instance reference,
fails with `planExpired`, pays nothing and records no transaction. -/
theorem collect_lazy_expiry (st : St) (uid : Nat) (now : Int)
    (s : Settings) (u : User) (iid : Nat) (inst : PlanInstance)
    (hs : st.settings = some s) (hu : st.users uid = some u)
    (ha : u.activePlanInstance = some iid) (hi : findInstance st iid = some inst)
    (hexp : inst.endDate < now) :
    (collectDailyProfit st uid now).2 = .failure .planExpired ∧
    (collectDailyProfit st uid now).1.transactions = st.transactions ∧
    wallet (collectDailyProfit st uid now).1 uid = u.walletBalance ∧
    findInstance (collectDailyProfit st uid now).1 iid =
      some { inst with status := "expired" } ∧
    (collectDailyProfit st uid now).1.users uid =
      some { u with activePlanInstance := none } := by
  unfold collectDailyProfit
  rw [hs]
  simp only []
  rw [hu]
  simp only [ha, Option.some_bind]
  rw [hi]
  simp only []
  rw [if_pos hexp]
  refine ⟨rfl, rfl, ?_, ?_, ?_⟩
  · simp [wallet, saveUser, saveInstance]
  · show findInstance (saveUser (saveInstance st _) _ _) iid = _
    simp only [findInstance, saveUser, saveInstance]
    exact find?_map_replace st.instances iid inst { inst with status := "expired" } hi rfl
  · simp [saveUser, saveInstance]

def exSt34 : St :=
  { users := fun i => if i = 1 then
        some { walletBalance := 1000, bonusBalance := 0,
               invitedBy := none, activePlanInstance := some 100 }
      else none,
    catalog := [{ id := 1, name := "A", minAmount := 500, maxAmount := 5000,
                  dailyYieldType := "percentage", dailyYieldValue := 2,
                  durationDays := 30, hashRate := "", imageUrl := "" }],
    instances := [{ id := 100, userId := 1, planId := 1, investedAmount := 1000,
                    dailyProfit := 20, startDate := 0, endDate := 2592000000,
                    lastCollectedDate := some 0, totalCollected := 0,
                    status := "active" }],
    transactions := [],
    settings := some { referralCommissionRate := 10, dailyCommissionRate := 5 },
    nextInstanceId := 0, nextPlanId := 2 }

theorem collect_lazy_expiry_witness :
    (collectDailyProfit exSt34 1 2592000001).2 = .failure .planExpired ∧
    (collectDailyProfit exSt34 1 2592000001).1.transactions = [] ∧
    wallet (collectDailyProfit exSt34 1 2592000001).1 1 = 1000 := by
  have h := collect_lazy_expiry exSt34 1 2592000001
    { referralCommissionRate := 10, dailyCommissionRate := 5 }
    { walletBalance := 1000, bonusBalance := 0,
      invitedBy := none, activePlanInstance := some 100 }
    100
    { id := 100, userId := 1, planId := 1, investedAmount := 1000,
      dailyProfit := 20, startDate := 0, endDate := 2592000000,
      lastCollectedDate := some 0, totalCollected := 0, status := "active" }
    rfl rfl rfl rfl (by norm_num)
  exact ⟨h.1, h.2.1, h.2.2.1⟩

/-- C3: on an active, unexpired instance, collecting before
`lastCollectedDate + 24h` fails with `collectionTooSoon` (carrying the
positive remaining time) and changes nothing; collecting at or after
that time succeeds, credits `dailyProfit` to the wallet, stamps
`lastCollectedDate := now`, accumulates `totalCollected` and appends a
`collection` ledger record of `+dailyProfit`. -/
theorem collect_cooldown (st : St) (uid : Nat) (now : Int)
    (s : Settings) (u : User) (iid : Nat) (inst : PlanInstance)
    (hs : st.settings = some s) (hu : st.users uid = some u)
    (ha : u.activePlanInstance = some iid) (hi : findInstance st iid = some inst)
    (hnexp : ¬ inst.endDate < now) (hni : u.invitedBy ≠ some uid) :
    (now < inst.lastCollectedDate.getD inst.startDate + 86400000 →
      collectDailyProfit st uid now =
        (st, .failure (.collectionTooSoon
          (inst.lastCollectedDate.getD inst.startDate + 86400000 - now))) ∧
      0 < inst.lastCollectedDate.getD inst.startDate + 86400000 - now) ∧
    (inst.lastCollectedDate.getD inst.startDate + 86400000 ≤ now →
      (collectDailyProfit st uid now).2 = .success ∧
      wallet (collectDailyProfit st uid now).1 uid = u.walletBalance + inst.dailyProfit ∧
      findInstance (collectDailyProfit st uid now).1 iid =
        some { inst with lastCollectedDate := some now,
                         totalCollected := inst.totalCollected + inst.dailyProfit } ∧
      (collectDailyProfit st uid now).1.transactions.filter
          (fun t => t.userId = uid && t.type = "collection") =
        { userId := uid, type := "collection", amount := inst.dailyProfit,
          description := "Coleta de rendimento diario" } ::
        st.transactions.filter (fun t => t.userId = uid && t.type = "collection")) := by
  have h24 : (24 * 60 * 60 * 1000 : Int) = 86400000 := by norm_num
  unfold collectDailyProfit
  rw [hs]
  simp only []
  rw [hu]
  simp only [ha, Option.some_bind]
  rw [hi]
  simp only []
  rw [if_neg hnexp, h24]
  constructor
  · intro hcool
    rw [if_pos hcool]
    exact ⟨rfl, by linarith⟩
  · intro hcool
    rw [if_neg (not_lt.mpr hcool)]
    cases hinv : u.invitedBy with
    | none =>
      refine ⟨rfl, by simp [wallet, saveUser, saveInstance, addTx], ?_, ?_⟩
      · show findInstance (addTx (saveUser (saveInstance st _) _ _) _) iid = _
        simp only [findInstance, addTx, saveUser, saveInstance]
        exact find?_map_replace st.instances iid inst _ hi rfl
      · simp [addTx, saveUser, saveInstance, List.filter]
    | some rid =>
      have hrne : rid ≠ uid := fun hcon => hni (by rw [hinv, hcon])
      simp only []
      cases hr : ((addTx (saveUser (saveInstance st _) uid _) _).users rid) with
      | none =>
        refine ⟨rfl, by simp [wallet, saveUser, saveInstance, addTx], ?_, ?_⟩
        · show findInstance (addTx (saveUser (saveInstance st _) _ _) _) iid = _
          simp only [findInstance, addTx, saveUser, saveInstance]
          exact find?_map_replace st.instances iid inst _ hi rfl
        · simp [addTx, saveUser, saveInstance, List.filter]
      | some referrer =>
        simp only []
        split
        · refine ⟨rfl, by simp [wallet, saveUser, saveInstance, addTx, Ne.symm hrne], ?_, ?_⟩
          · show findInstance (addTx (saveUser (addTx (saveUser (saveInstance st _) _ _) _) _ _) _) iid = _
            simp only [findInstance, addTx, saveUser, saveInstance]
            exact find?_map_replace st.instances iid inst _ hi rfl
          · simp [addTx, saveUser, saveInstance, List.filter, hrne]
        · refine ⟨rfl, by simp [wallet, saveUser, saveInstance, addTx], ?_, ?_⟩
          · show findInstance (addTx (saveUser (saveInstance st _) _ _) _) iid = _
            simp only [findInstance, addTx, saveUser, saveInstance]
            exact find?_map_replace st.instances iid inst _ hi rfl
          · simp [addTx, saveUser, saveInstance, List.filter]

theorem collect_cooldown_witness :
    (collectDailyProfit exSt34 1 1000 =
      (exSt34, .failure (.collectionTooSoon ((some (0 : Int)).getD 0 + 86400000 - 1000)))) ∧
    (collectDailyProfit exSt34 1 86400000).2 = .success ∧
    wallet (collectDailyProfit exSt34 1 86400000).1 1 = 1000 + 20 := by
  have hearly := collect_cooldown exSt34 1 1000
    { referralCommissionRate := 10, dailyCommissionRate := 5 }
    { walletBalance := 1000, bonusBalance := 0,
      invitedBy := none, activePlanInstance := some 100 }
    100
    { id := 100, userId := 1, planId := 1, investedAmount := 1000,
      dailyProfit := 20, startDate := 0, endDate := 2592000000,
      lastCollectedDate := some 0, totalCollected := 0, status := "active" }
    rfl rfl rfl rfl (by norm_num) (by simp)
  have hlate := collect_cooldown exSt34 1 86400000
    { referralCommissionRate := 10, dailyCommissionRate := 5 }
    { walletBalance := 1000, bonusBalance := 0,
      invitedBy := none, activePlanInstance := some 100 }
    100
    { id := 100, userId := 1, planId := 1, investedAmount := 1000,
      dailyProfit := 20, startDate := 0, endDate := 2592000000,
      lastCollectedDate := some 0, totalCollected := 0, status := "active" }
    rfl rfl rfl rfl (by norm_num) (by simp)
  refine ⟨(hearly.1 (by norm_num)).1, ?_, ?_⟩
  · exact (hlate.2 (by norm_num)).1
  · exact (hlate.2 (by norm_num)).2.1

/-! ## Claim about upgrades (C5) -/

/-- C5: upgrading with an active instance fails with `notHigherTier`
unless the new plan's `minAmount` is strictly greater than the old
plan's, fails with `insufficientFunds` when the wallet is below the
price difference, and otherwise debits exactly the price difference,
expires the old instance and creates a new active instance whose
`investedAmount` is the new plan's `minAmount`. -/
theorem upgrade_spec (st : St) (uid npid : Nat) (now : Int)
    (u : User) (iid : Nat) (inst : PlanInstance) (oldPlan newPlan : Plan)
    (hu : st.users uid = some u) (ha : u.activePlanInstance = some iid)
    (hi : findInstance st iid = some inst)
    (hnp : findPlan st npid = some newPlan)
    (hop : findPlan st inst.planId = some oldPlan) :
    (newPlan.minAmount ≤ oldPlan.minAmount →
      upgradePlan st uid npid now = (st, .failure .notHigherTier)) ∧
    (oldPlan.minAmount < newPlan.minAmount →
      u.walletBalance < newPlan.minAmount - oldPlan.minAmount →
      upgradePlan st uid npid now = (st, .failure .insufficientFunds)) ∧
    (oldPlan.minAmount < newPlan.minAmount →
      newPlan.minAmount - oldPlan.minAmount ≤ u.walletBalance →
      (upgradePlan st uid npid now).2 = .success ∧
      wallet (upgradePlan st uid npid now).1 uid =
        u.walletBalance - (newPlan.minAmount - oldPlan.minAmount) ∧
      { inst with status := "expired" } ∈ (upgradePlan st uid npid now).1.instances ∧
      (upgradePlan st uid npid now).1.instances.head? = some
        { id := st.nextInstanceId, userId := uid, planId := newPlan.id,
          investedAmount := newPlan.minAmount,
          dailyProfit := computeDailyProfit newPlan newPlan.minAmount,
          startDate := now, endDate := addDays now newPlan.durationDays,
          lastCollectedDate := some now, totalCollected := 0,
          status := "active" } ∧
      (upgradePlan st uid npid now).1.transactions =
        { userId := uid, type := "investment",
          amount := -(newPlan.minAmount - oldPlan.minAmount),
          description := "Upgrade do plano " ++ oldPlan.name ++ " para " ++ newPlan.name } ::
        st.transactions) := by
  unfold upgradePlan
  rw [hu]
  simp only [ha, Option.some_bind]
  rw [hi]
  simp only []
  rw [hnp]
  simp only []
  rw [hop]
  simp only []
  refine ⟨fun hle => by rw [if_pos hle], fun hgt hpoor => ?_, fun hgt hrich => ?_⟩
  · rw [if_neg (not_le.mpr hgt), if_pos hpoor]
  · rw [if_neg (not_le.mpr hgt), if_neg (not_lt.mpr hrich)]
    refine ⟨rfl, by simp [wallet, saveUser, createInstance, saveInstance, addTx], ?_, rfl, rfl⟩
    show _ ∈ (addTx (saveUser (createInstance (saveInstance st _) _).1 _ _) _).instances
    simp only [addTx, saveUser, createInstance, saveInstance]
    refine List.mem_cons_of_mem _ ?_
    have hmem : inst ∈ st.instances := List.mem_of_find?_eq_some hi
    exact List.mem_map.mpr ⟨inst, hmem, by simp⟩

def exSt5 : St :=
  { users := fun i => if i = 1 then
        some { walletBalance := 1200, bonusBalance := 0,
               invitedBy := none, activePlanInstance := some 100 }
      else none,
    catalog := [{ id := 1, name := "A", minAmount := 500, maxAmount := 5000,
                  dailyYieldType := "percentage", dailyYieldValue := 2,
                  durationDays := 30, hashRate := "", imageUrl := "" },
                { id := 2, name := "B", minAmount := 1500, maxAmount := 15000,
                  dailyYieldType := "fixed", dailyYieldValue := 40,
                  durationDays := 30, hashRate := "", imageUrl := "" }],
    instances := [{ id := 100, userId := 1, planId := 1, investedAmount := 1000,
                    dailyProfit := 20, startDate := 0, endDate := 2592000000,
                    lastCollectedDate := some 0, totalCollected := 0,
                    status := "active" }],
    transactions := [],
    settings := some { referralCommissionRate := 10, dailyCommissionRate := 5 },
    nextInstanceId := 101, nextPlanId := 3 }

theorem upgrade_spec_witness :
    (upgradePlan exSt5 1 2 0).2 = .success ∧
    wallet (upgradePlan exSt5 1 2 0).1 1 = 1200 - (1500 - 500 : ℚ) := by
  have h := upgrade_spec exSt5 1 2 0
    { walletBalance := 1200, bonusBalance := 0,
      invitedBy := none, activePlanInstance := some 100 }
    100
    { id := 100, userId := 1, planId := 1, investedAmount := 1000,
      dailyProfit := 20, startDate := 0, endDate := 2592000000,
      lastCollectedDate := some 0, totalCollected := 0, status := "active" }
    { id := 1, name := "A", minAmount := 500, maxAmount := 5000,
      dailyYieldType := "percentage", dailyYieldValue := 2,
      durationDays := 30, hashRate := "", imageUrl := "" }
    { id := 2, name := "B", minAmount := 1500, maxAmount := 15000,
      dailyYieldType := "fixed", dailyYieldValue := 40,
      durationDays := 30, hashRate := "", imageUrl := "" }
    rfl rfl rfl rfl rfl
  obtain ⟨h1, h2⟩ := (h.2.2 (by norm_num) (by norm_num))
  exact ⟨h1, h2.1⟩

/-! ## Claim about referral commissions (C6) -/

/-- C6: (activation) a referred user's activation credits the referrer
`investedAmount * referralCommissionRate / 100` with a `commission`
ledger record, with no condition on the referrer's own plan status;
(collection) a successful daily collection credits the referrer
`dailyProfit * dailyCommissionRate / 100` with a `commission` record
only when the referrer's `activePlanInstance` reference is set, and
pays and records nothing for the referrer otherwise. -/
theorem referral_commissions
    (stA : St) (uidA pidA : Nat) (amountA : ℚ) (nowA : Int)
    (sA : Settings) (uA : User) (planA : Plan) (ridA : Nat) (rA : User)
    (stC : St) (uidC : Nat) (nowC : Int)
    (sC : Settings) (uC : User) (iidC : Nat) (instC : PlanInstance)
    (ridC : Nat) (rC : User) :
    ((stA.settings = some sA) → (stA.users uidA = some uA) →
      (uA.activePlanInstance = none) → (findPlan stA pidA = some planA) →
      (¬(amountA < planA.minAmount ∨ amountA > planA.maxAmount)) →
      (¬(uA.walletBalance < (fundSplit uA.bonusBalance amountA).1)) →
      (uA.invitedBy = some ridA) → (ridA ≠ uidA) → (stA.users ridA = some rA) →
      (activatePlan stA uidA pidA (some amountA) nowA).2 = .success ∧
      (activatePlan stA uidA pidA (some amountA) nowA).1.users ridA = some
        { rA with walletBalance :=
            rA.walletBalance + amountA * (sA.referralCommissionRate / 100) } ∧
      (activatePlan stA uidA pidA (some amountA) nowA).1.transactions =
        { userId := ridA, type := "commission",
          amount := amountA * (sA.referralCommissionRate / 100),
          description := "Comissao por ativacao de plano" } ::
        { userId := uidA, type := "investment", amount := -amountA,
          description := "Investimento no plano " ++ planA.name } ::
        stA.transactions) ∧
    ((stC.settings = some sC) → (stC.users uidC = some uC) →
      (uC.activePlanInstance = some iidC) → (findInstance stC iidC = some instC) →
      (¬ instC.endDate < nowC) →
      (instC.lastCollectedDate.getD instC.startDate + 86400000 ≤ nowC) →
      (uC.invitedBy = some ridC) → (ridC ≠ uidC) → (stC.users ridC = some rC) →
      (collectDailyProfit stC uidC nowC).2 = .success ∧
      (rC.activePlanInstance.isSome →
        (collectDailyProfit stC uidC nowC).1.users ridC = some
          { rC with walletBalance :=
              rC.walletBalance + instC.dailyProfit * (sC.dailyCommissionRate / 100) } ∧
        (collectDailyProfit stC uidC nowC).1.transactions =
          { userId := ridC, type := "commission",
            amount := instC.dailyProfit * (sC.dailyCommissionRate / 100),
            description := "Comissao diaria do lucro" } ::
          { userId := uidC, type := "collection", amount := instC.dailyProfit,
            description := "Coleta de rendimento diario" } ::
          stC.transactions) ∧
      (rC.activePlanInstance = none →
        (collectDailyProfit stC uidC nowC).1.users ridC = some rC ∧
        (collectDailyProfit stC uidC nowC).1.transactions =
          { userId := uidC, type := "collection", amount := instC.dailyProfit,
            description := "Coleta de rendimento diario" } ::
          stC.transactions)) := by
  constructor
  · intro hs hu hap hp hrange hw hinv hrne hr
    unfold activatePlan
    rw [hs]
    simp only []
    rw [hu]
    simp only [hap, Option.isSome_none, Bool.false_eq_true, if_false]
    rw [hp]
    simp only []
    rw [if_neg hrange, if_neg hw]
    simp only [hinv]
    cases hr2 : ((addTx (saveUser (createInstance stA _).1 uidA _) _).users ridA) with
    | none =>
      exfalso
      simp [addTx, saveUser, createInstance, hrne, hr] at hr2
    | some referrer =>
      obtain rfl : rA = referrer := by
        simp [addTx, saveUser, createInstance, hrne, hr] at hr2
        exact hr2
      simp only []
      refine ⟨by trivial, ?_, by trivial⟩
      simp [addTx, saveUser, createInstance]
  · intro hs hu ha hi hnexp hcool hinv hrne hr
    have h24 : (24 * 60 * 60 * 1000 : Int) = 86400000 := by norm_num
    unfold collectDailyProfit
    rw [hs]
    simp only []
    rw [hu]
    simp only [ha, Option.some_bind]
    rw [hi]
    simp only []
    rw [if_neg hnexp, h24, if_neg (not_lt.mpr hcool)]
    simp only [hinv]
    cases hr2 : ((addTx (saveUser (saveInstance stC _) uidC _) _).users ridC) with
    | none =>
      exfalso
      simp [addTx, saveUser, saveInstance, hrne, hr] at hr2
    | some referrer =>
      obtain rfl : rC = referrer := by
        simp [addTx, saveUser, saveInstance, hrne, hr] at hr2
        exact hr2
      simp only []
      by_cases hact : rC.activePlanInstance.isSome = true
      · rw [if_pos hact]
        refine ⟨by trivial, fun _ => ⟨?_, by trivial⟩, fun hnone => ?_⟩
        · simp [addTx, saveUser, saveInstance]
        · rw [hnone] at hact
          simp at hact
      · rw [if_neg hact]
        refine ⟨by trivial, fun hsome => absurd hsome hact, fun _ => ⟨?_, by trivial⟩⟩
        simp [addTx, saveUser, saveInstance, hrne, hr]

def exSt6A : St :=
  { users := fun i =>
      if i = 1 then
        some { walletBalance := 1000, bonusBalance := 0,
               invitedBy := some 2, activePlanInstance := none }
      else if i = 2 then
        some { walletBalance := 50, bonusBalance := 0,
               invitedBy := none, activePlanInstance := none }
      else none,
    catalog := [{ id := 1, name := "A", minAmount := 500, maxAmount := 5000,
                  dailyYieldType := "percentage", dailyYieldValue := 2,
                  durationDays := 30, hashRate := "", imageUrl := "" }],
    instances := [], transactions := [],
    settings := some { referralCommissionRate := 10, dailyCommissionRate := 5 },
    nextInstanceId := 0, nextPlanId := 2 }

def exSt6C : St :=
  { users := fun i =>
      if i = 1 then
        some { walletBalance := 1000, bonusBalance := 0,
               invitedBy := some 2, activePlanInstance := some 100 }
      else if i = 2 then
        some { walletBalance := 50, bonusBalance := 0,
               invitedBy := none, activePlanInstance := some 101 }
      else none,
    catalog := [{ id := 1, name := "A", minAmount := 500, maxAmount := 5000,
                  dailyYieldType := "percentage", dailyYieldValue := 2,
                  durationDays := 30, hashRate := "", imageUrl := "" }],
    instances := [{ id := 100, userId := 1, planId := 1, investedAmount := 1000,
                    dailyProfit := 20, startDate := 0, endDate := 2592000000,
                    lastCollectedDate := some 0, totalCollected := 0,
                    status := "active" },
                  { id := 101, userId := 2, planId := 1, investedAmount := 500,
                    dailyProfit := 10, startDate := 0, endDate := 2592000000,
                    lastCollectedDate := some 0, totalCollected := 0,
                    status := "active" }],
    transactions := [],
    settings := some { referralCommissionRate := 10, dailyCommissionRate := 5 },
    nextInstanceId := 0, nextPlanId := 2 }

def exSt6N : St :=
  { users := fun i =>
      if i = 1 then
        some { walletBalance := 1000, bonusBalance := 0,
               invitedBy := some 2, activePlanInstance := some 100 }
      else if i = 2 then
        some { walletBalance := 50, bonusBalance := 0,
               invitedBy := none, activePlanInstance := none }
      else none,
    catalog := [{ id := 1, name := "A", minAmount := 500, maxAmount := 5000,
                  dailyYieldType := "percentage", dailyYieldValue := 2,
                  durationDays := 30, hashRate := "", imageUrl := "" }],
    instances := [{ id := 100, userId := 1, planId := 1, investedAmount := 1000,
                    dailyProfit := 20, startDate := 0, endDate := 2592000000,
                    lastCollectedDate := some 0, totalCollected := 0,
                    status := "active" }],
    transactions := [],
    settings := some { referralCommissionRate := 10, dailyCommissionRate := 5 },
    nextInstanceId := 0, nextPlanId := 2 }

theorem referral_commissions_witness :
    ((activatePlan exSt6A 1 1 (some 1000) 0).2 = .success ∧
     (activatePlan exSt6A 1 1 (some 1000) 0).1.users 2 = some
       { walletBalance := 50 + 1000 * ((10 : ℚ) / 100), bonusBalance := 0,
         invitedBy := none, activePlanInstance := none }) ∧
    ((collectDailyProfit exSt6C 1 86400000).1.users 2 = some
       { walletBalance := 50 + 20 * ((5 : ℚ) / 100), bonusBalance := 0,
         invitedBy := none, activePlanInstance := some 101 }) ∧
    ((collectDailyProfit exSt6N 1 86400000).1.users 2 = some
       { walletBalance := 50, bonusBalance := 0,
         invitedBy := none, activePlanInstance := none }) := by
  have hA := (referral_commissions exSt6A 1 1 1000 0
    { referralCommissionRate := 10, dailyCommissionRate := 5 }
    { walletBalance := 1000, bonusBalance := 0,
      invitedBy := some 2, activePlanInstance := none }
    { id := 1, name := "A", minAmount := 500, maxAmount := 5000,
      dailyYieldType := "percentage", dailyYieldValue := 2,
      durationDays := 30, hashRate := "", imageUrl := "" }
    2
    { walletBalance := 50, bonusBalance := 0,
      invitedBy := none, activePlanInstance := none }
    exSt6A 1 0
    { referralCommissionRate := 10, dailyCommissionRate := 5 }
    { walletBalance := 1000, bonusBalance := 0,
      invitedBy := some 2, activePlanInstance := none }
    0
    { id := 100, userId := 1, planId := 1, investedAmount := 1000,
      dailyProfit := 20, startDate := 0, endDate := 2592000000,
      lastCollectedDate := some 0, totalCollected := 0, status := "active" }
    2
    { walletBalance := 50, bonusBalance := 0,
      invitedBy := none, activePlanInstance := none }).1
    rfl rfl rfl rfl (by norm_num) (by norm_num [fundSplit]) rfl (by norm_num) rfl
  have hC := (referral_commissions exSt6A 1 1 1000 0
    { referralCommissionRate := 10, dailyCommissionRate := 5 }
    { walletBalance := 1000, bonusBalance := 0,
      invitedBy := some 2, activePlanInstance := none }
    { id := 1, name := "A", minAmount := 500, maxAmount := 5000,
      dailyYieldType := "percentage", dailyYieldValue := 2,
      durationDays := 30, hashRate := "", imageUrl := "" }
    2
    { walletBalance := 50, bonusBalance := 0,
      invitedBy := none, activePlanInstance := none }
    exSt6C 1 86400000
    { referralCommissionRate := 10, dailyCommissionRate := 5 }
    { walletBalance := 1000, bonusBalance := 0,
      invitedBy := some 2, activePlanInstance := some 100 }
    100
    { id := 100, userId := 1, planId := 1, investedAmount := 1000,
      dailyProfit := 20, startDate := 0, endDate := 2592000000,
      lastCollectedDate := some 0, totalCollected := 0, status := "active" }
    2
    { walletBalance := 50, bonusBalance := 0,
      invitedBy := none, activePlanInstance := some 101 }).2
    rfl rfl rfl rfl (by norm_num) (by norm_num) rfl (by norm_num) rfl
  have hN := (referral_commissions exSt6A 1 1 1000 0
    { referralCommissionRate := 10, dailyCommissionRate := 5 }
    { walletBalance := 1000, bonusBalance := 0,
      invitedBy := some 2, activePlanInstance := none }
    { id := 1, name := "A", minAmount := 500, maxAmount := 5000,
      dailyYieldType := "percentage", dailyYieldValue := 2,
      durationDays := 30, hashRate := "", imageUrl := "" }
    2
    { walletBalance := 50, bonusBalance := 0,
      invitedBy := none, activePlanInstance := none }
    exSt6N 1 86400000
    { referralCommissionRate := 10, dailyCommissionRate := 5 }
    { walletBalance := 1000, bonusBalance := 0,
      invitedBy := some 2, activePlanInstance := some 100 }
    100
    { id := 100, userId := 1, planId := 1, investedAmount := 1000,
      dailyProfit := 20, startDate := 0, endDate := 2592000000,
      lastCollectedDate := some 0, totalCollected := 0, status := "active" }
    2
    { walletBalance := 50, bonusBalance := 0,
      invitedBy := none, activePlanInstance := none }).2
    rfl rfl rfl rfl (by norm_num) (by norm_num) rfl (by norm_num) rfl
  refine ⟨⟨hA.1, hA.2.1⟩, ((hC.2.1 (by norm_num)).1), ((hN.2.2 rfl).1)⟩

/-! ## Corrected claims (C1, C7, C8) and the renewal crash (C10) -/

/-- C1 (amended): over any sequence of lifecycle operations, the change
of a user's ledger total equals the change of the wallet balance plus
the change of the bonus balance.  (The wallet change alone matches the
ledger exactly when no bonus balance is consumed: every operation other
than a bonus-funded activation leaves the bonus balance untouched.) -/
theorem ledger_conservation (st : St) (ops : List Op) (q : Nat) :
    txSum q (run st ops).transactions - txSum q st.transactions =
      (wallet (run st ops) q - wallet st q) +
      (bonus (run st ops) q - bonus st q) := by
  have h := acct_run st ops q
  unfold acct at h
  linarith

/-- C1 counterexample: activating 300 with a 200 bonus balance records
an `investment` transaction of −300 while the wallet is only debited by
100, so the ledger total does not match the wallet change alone. -/
theorem ledger_conservation_counterexample :
    txSum 1 (run exSt [Op.activate 1 1 (some 300) 0]).transactions = -300 ∧
    wallet (run exSt [Op.activate 1 1 (some 300) 0]) 1 - wallet exSt 1 = -100 ∧
    ¬ (txSum 1 (run exSt [Op.activate 1 1 (some 300) 0]).transactions -
         txSum 1 exSt.transactions =
       wallet (run exSt [Op.activate 1 1 (some 300) 0]) 1 - wallet exSt 1) := by
  refine ⟨?_, ?_, ?_⟩ <;>
    norm_num [run, step, activatePlan, exSt, findPlan, fundSplit, computeDailyProfit,
      createInstance, saveUser, addTx, txSum, wallet, List.find?, List.foldl]

/-- C7 (amended): when the global settings record is absent,
`activatePlan` and `collectDailyProfit` fail with
`configurationMissing` before touching the store, while `upgradePlan`
and `renewPlan` never consult the settings record and can never fail
with `configurationMissing`. -/
theorem settings_gate (st : St) (uid pid iid : Nat) (amt : Option ℚ) (now : Int) :
    (st.settings = none →
      activatePlan st uid pid amt now = (st, .failure .configurationMissing) ∧
      collectDailyProfit st uid now = (st, .failure .configurationMissing)) ∧
    (upgradePlan st uid pid now).2 ≠ .failure .configurationMissing ∧
    (renewPlan st uid iid now).2 ≠ .failure .configurationMissing := by
  refine ⟨fun h => ⟨?_, ?_⟩, ?_, ?_⟩
  · unfold activatePlan; rw [h]
  · unfold collectDailyProfit; rw [h]
  · unfold upgradePlan
    cases st.users uid with
    | none => simp
    | some user =>
    simp only []
    cases user.activePlanInstance.bind (findInstance st) with
    | none => simp
    | some oi =>
    simp only []
    cases findPlan st pid with
    | none => simp
    | some np =>
    simp only []
    cases findPlan st oi.planId with
    | none => simp
    | some oldPlan =>
    simp only []
    split
    · simp
    · split <;> simp
  · unfold renewPlan
    cases findInstance st iid with
    | none => simp
    | some oldInstance =>
    simp only []
    cases st.users uid with
    | none => simp
    | some user =>
    simp only []
    split
    · simp
    split
    · simp
    split
    · simp
    cases findPlan st oldInstance.planId with
    | none => simp
    | some planToRenew =>
    simp only []
    split <;> simp

def exSt7 : St :=
  { users := fun i => if i = 1 then
        some { walletBalance := 1200, bonusBalance := 0,
               invitedBy := none, activePlanInstance := some 100 }
      else none,
    catalog := [{ id := 1, name := "A", minAmount := 500, maxAmount := 5000,
                  dailyYieldType := "percentage", dailyYieldValue := 2,
                  durationDays := 30, hashRate := "", imageUrl := "" },
                { id := 2, name := "B", minAmount := 1500, maxAmount := 15000,
                  dailyYieldType := "fixed", dailyYieldValue := 40,
                  durationDays := 30, hashRate := "", imageUrl := "" }],
    instances := [{ id := 100, userId := 1, planId := 1, investedAmount := 1000,
                    dailyProfit := 20, startDate := 0, endDate := 2592000000,
                    lastCollectedDate := some 0, totalCollected := 0,
                    status := "active" }],
    transactions := [],
    settings := none,
    nextInstanceId := 101, nextPlanId := 3 }

theorem settings_gate_witness :
    activatePlan exSt7 1 1 (some 1000) 0 = (exSt7, .failure .configurationMissing) ∧
    collectDailyProfit exSt7 1 0 = (exSt7, .failure .configurationMissing) ∧
    (upgradePlan exSt7 1 2 0).2 ≠ .failure .configurationMissing := by
  have h := settings_gate exSt7 1 2 100 (some 1000) 0
  obtain ⟨h1, h2⟩ := h.1 rfl
  refine ⟨?_, h2, h.2.1⟩
  have h1b := (settings_gate exSt7 1 1 100 (some 1000) 0).1 rfl
  exact h1b.1

/-- C7 counterexample: with the settings record absent, an upgrade
nevertheless succeeds (the controller never reads settings there),
contradicting the claim that every lifecycle operation fails with
`configurationMissing`. -/
theorem settings_gate_counterexample :
    exSt7.settings = none ∧ (upgradePlan exSt7 1 2 0).2 = .success := by
  refine ⟨rfl, ?_⟩
  norm_num [upgradePlan, exSt7, findPlan, findInstance, computeDailyProfit,
    saveUser, saveInstance, createInstance, addTx, List.find?]

/-- Replacing the element a `find?` located (by plan id) is observed by
a subsequent `find?` with the same id. -/
theorem find?_map_replacePlan (l : List Plan) (pid : Nat) (a b : Plan)
    (h : l.find? (fun p => p.id = pid) = some a) (hb : b.id = a.id) :
    (l.map (fun q => if q.id = a.id then b else q)).find? (fun p => p.id = pid) =
      some b := by
  have haid : a.id = pid := by simpa using List.find?_some h
  induction l with
  | nil => simp at h
  | cons x xs ih =>
    simp only [List.map_cons]
    by_cases hx : x.id = pid
    · rw [List.find?_cons_of_pos _ (by simpa using hx)] at h
      obtain rfl : x = a := by simpa using h
      rw [if_pos rfl]
      exact List.find?_cons_of_pos _ (by simp [hb, haid])
    · rw [List.find?_cons_of_neg _ (by simpa using hx)] at h
      rw [if_neg (fun hcon => hx (by rw [hcon, haid]))]
      rw [List.find?_cons_of_neg _ (by simpa using hx)]
      exact ih h

/-- C8 (amended): the admin catalog operations perform no
`minAmount ≤ maxAmount` validation.  `createPlan` succeeds whenever the
six required fields are truthy and stores the given bounds verbatim;
`updatePlan` merges the body into the stored plan unchecked.  A plan
with `minAmount > maxAmount` can therefore be stored by either. -/
theorem catalog_no_range_validation (st : St) (body : PlanBody) (file : Option String)
    (pid : Nat) (plan : Plan) :
    ((truthyStr body.name && truthyNum body.minAmount && truthyNum body.maxAmount &&
      truthyStr body.dailyYieldType && truthyNum body.dailyYieldValue &&
      truthyNat body.durationDays) = true →
      (createPlan st body file).2 = .success ∧
      (createPlan st body file).1.catalog.head? = some
        { id := st.nextPlanId, name := body.name.getD "",
          minAmount := body.minAmount.getD 0, maxAmount := body.maxAmount.getD 0,
          dailyYieldType := body.dailyYieldType.getD "",
          dailyYieldValue := body.dailyYieldValue.getD 0,
          durationDays := body.durationDays.getD 0,
          hashRate := body.hashRate.getD "", imageUrl := file.getD "" }) ∧
    (findPlan st pid = some plan → file = none →
      (updatePlan st pid body file).2 = .success ∧
      findPlan (updatePlan st pid body file).1 pid = some (mergePlan plan body)) := by
  constructor
  · intro htruthy
    unfold createPlan
    rw [htruthy]
    exact ⟨by trivial, by trivial⟩
  · intro hp hfile
    subst hfile
    unfold updatePlan
    rw [hp]
    simp only []
    refine ⟨by trivial, ?_⟩
    show findPlan (savePlan st (mergePlan plan body)) pid = _
    simp only [findPlan, savePlan]
    exact find?_map_replacePlan st.catalog pid plan (mergePlan plan body) hp rfl

def exSt8 : St :=
  { users := fun _ => none,
    catalog := [{ id := 1, name := "A", minAmount := 500, maxAmount := 5000,
                  dailyYieldType := "percentage", dailyYieldValue := 2,
                  durationDays := 30, hashRate := "", imageUrl := "" }],
    instances := [], transactions := [],
    settings := some { referralCommissionRate := 10, dailyCommissionRate := 5 },
    nextInstanceId := 0, nextPlanId := 2 }

def exPlan8 : Plan :=
  { id := 1, name := "A", minAmount := 6000, maxAmount := 5000,
    dailyYieldType := "percentage", dailyYieldValue := 2,
    durationDays := 30, hashRate := "", imageUrl := "" }

def exBody8 : PlanBody :=
  { name := none, minAmount := some 6000, maxAmount := none,
    dailyYieldType := none, dailyYieldValue := none,
    durationDays := none, hashRate := none }

theorem catalog_no_range_validation_witness :
    (updatePlan exSt8 1 exBody8 none).2 = .success ∧
    findPlan (updatePlan exSt8 1 exBody8 none).1 1 = some
      { id := 1, name := "A", minAmount := 6000, maxAmount := 5000,
        dailyYieldType := "percentage", dailyYieldValue := 2,
        durationDays := 30, hashRate := "", imageUrl := "" } := by
  have h := (catalog_no_range_validation exSt8 exBody8 none 1
    { id := 1, name := "A", minAmount := 500, maxAmount := 5000,
      dailyYieldType := "percentage", dailyYieldValue := 2,
      durationDays := 30, hashRate := "", imageUrl := "" }).2 rfl rfl
  exact ⟨h.1, h.2⟩

/-- C8 counterexample: a partial-field update setting `minAmount :=
6000` on a plan whose `maxAmount` is 5000 succeeds, leaving a catalog
plan with `maxAmount < minAmount`. -/
theorem catalog_minmax_counterexample :
    (updatePlan exSt8 1 exBody8 none).2 = .success ∧
    ∃ p ∈ (updatePlan exSt8 1 exBody8 none).1.catalog, p.maxAmount < p.minAmount := by
  constructor
  · rfl
  · refine ⟨exPlan8, ?_, by norm_num [exPlan8]⟩
    norm_num [updatePlan, exSt8, exBody8, exPlan8, findPlan, mergePlan, savePlan,
      List.find?]

def exSt10 : St :=
  { users := fun i => if i = 1 then
        some { walletBalance := 5000, bonusBalance := 0,
               invitedBy := none, activePlanInstance := none }
      else none,
    catalog := [{ id := 1, name := "A", minAmount := 500, maxAmount := 5000,
                  dailyYieldType := "percentage", dailyYieldValue := 2,
                  durationDays := 30, hashRate := "", imageUrl := "" }],
    instances := [{ id := 100, userId := 1, planId := 1, investedAmount := 1000,
                    dailyProfit := 20, startDate := 0, endDate := 2592000000,
                    lastCollectedDate := some 0, totalCollected := 0,
                    status := "expired" }],
    transactions := [],
    settings := some { referralCommissionRate := 10, dailyCommissionRate := 5 },
    nextInstanceId := 101, nextPlanId := 2 }

/-- C10: deleting a catalog plan whose only instances are expired
succeeds, and a subsequent renewal of such an expired instance reads
`minAmount` from the now-absent plan record with no not-found guard:
the call ends in an uncaught `TypeError` (`crash`), not a `NotFound`
response. -/
theorem renew_missing_plan_crash :
    (deletePlan exSt10 1).2 = .success ∧
    findPlan (deletePlan exSt10 1).1 1 = none ∧
    renewPlan (deletePlan exSt10 1).1 1 100 0 = ((deletePlan exSt10 1).1, .crash) := by
  refine ⟨?_, ?_, ?_⟩ <;>
    simp [deletePlan, renewPlan, exSt10, findPlan, findInstance,
      List.find?, List.filter]

end Plans
